import Mathlib

/-!
Shallow embedding of the data-normalization pipeline and aggregation helpers
of `src/simples-financas.py`.

The spreadsheet fetch (lines 14-24 of the source) is external I/O and is out
of scope; the embedding starts from the already-fetched DataFrame, modelled
as a list of column labels plus a list of rows (association lists from column
label to cell value).  Pandas/NumPy missing values (NaN / NaT) are modelled by
the cell constructor `Cell.na`.  Stateful pandas column assignments become
functional updates; operations that raise in pandas (KeyError on a missing
`dropna` subset column, AttributeError on `"".fillna`) return `Except.error`.
-/

namespace SimplesFinancas

/-- Calendar date, the model of a pandas `Timestamp` produced by
`pd.to_datetime` (the time-of-day component is irrelevant to every
computation in the source, which only groups by year-month). -/
structure PDate where
  year : Nat
  month : Nat
  day : Nat
deriving DecidableEq, Repr

/-- A spreadsheet / DataFrame cell: missing (NaN/NaT), a raw string, a parsed
number, or a parsed date. -/
inductive Cell where
  | na : Cell
  | str : String → Cell
  | num : Rat → Cell
  | date : PDate → Cell
deriving DecidableEq, Repr

/-- Model of Python `str()` as applied by `.astype(str)` to a cell.  NaN
stringifies to `"nan"`.  The pipeline only ever applies it to string and
missing cells (raw sheet values), so the rendering of already-parsed numeric
and date cells is a nominal model of `repr`. -/
def Cell.pyStr : Cell → String
  | .na => "nan"
  | .str s => s
  | .num q => toString q.num
  | .date d => toString d.year

/-- Model of pandas `Series.fillna`: replace a missing cell by a string. -/
def Cell.fillna (c : Cell) (d : String) : Cell :=
  match c with
  | .na => .str d
  | c => c

/-- Whether a cell is missing (NaN/NaT), as tested by `dropna`. -/
def Cell.isNA : Cell → Bool
  | .na => true
  | _ => false

/-- A DataFrame row: association list from column label to cell.  A label
absent from the list is read as a missing value. -/
abbrev Row := List (String × Cell)

/-- Read a cell from a row; an absent label reads as NaN. -/
def Row.get (r : Row) (k : String) : Cell :=
  ((List.lookup k r).getD Cell.na)

/-- Functional update of a row at a label (pandas column assignment,
restricted to one row): overwrite the label in place if present, else append
it at the end. -/
def Row.set (r : Row) (k : String) (v : Cell) : Row :=
  if (List.lookup k r).isSome then
    r.map (fun kv => if kv.1 = k then (k, v) else kv)
  else
    r ++ [(k, v)]

/-- A DataFrame: the ordered list of column labels plus the rows. -/
structure DF where
  cols : List String
  rows : List Row
deriving DecidableEq, Repr

/-- Overwrite one column cell-wise (pandas `df[c] = f(df[c])`); used only
when the column is already present. -/
def DF.mapCol (df : DF) (k : String) (f : Cell → Cell) : DF :=
  { cols := df.cols,
    rows := df.rows.map (fun r => r.set k (f (r.get k))) }

/-- Add (or overwrite) a column computed per-row (pandas `df[c] = expr`). -/
def DF.addCol (df : DF) (k : String) (f : Row → Cell) : DF :=
  { cols := if k ∈ df.cols then df.cols else df.cols ++ [k],
    rows := df.rows.map (fun r => r.set k (f r)) }

/-! ### Amount parsing (source lines 48-55) -/

/-- The string transformation of source lines 49-54:
`.str.replace(".", "", regex=False).str.replace(",", ".", regex=False)` —
remove every dot, then turn every comma into a dot. -/
def valorTransform (s : String) : String :=
  String.mk (((s.data.filter (fun c => c ≠ '.')).map
    (fun c => if c = ',' then '.' else c)))

/-- Strip leading and trailing whitespace from a character list (Python
`str.strip`, core `String.trim`, rewritten by structural recursion so that it
evaluates by kernel reduction). -/
def stripChars (cs : List Char) : List Char :=
  (((cs.dropWhile Char.isWhitespace).reverse.dropWhile Char.isWhitespace).reverse)

/-- Python `str.strip` on a string. -/
def pyStrip (s : String) : String :=
  String.mk (stripChars s.data)

/-- Python `str.lower` on a string (core `String.toLower`, char-wise). -/
def pyLower (s : String) : String :=
  String.mk (s.data.map Char.toLower)

/-- Split a character list at a separator character (Python `str.split`,
keeping empty segments). -/
def splitChar (sep : Char) : List Char → List (List Char)
  | [] => [[]]
  | c :: cs =>
    if c = sep then
      [] :: splitChar sep cs
    else
      match splitChar sep cs with
      | [] => [[c]]
      | g :: gs => (c :: g) :: gs

/-- Lexicographic comparison of character lists by code point (Python string
order, used by the key sort of `groupby`). -/
def charsLe : List Char → List Char → Bool
  | [], _ => true
  | _ :: _, [] => false
  | a :: as, b :: bs => if a = b then charsLe as bs else decide (a < b)

/-- Digit list to value; `none` when some character is not a decimal digit. -/
def digitsVal (cs : List Char) : Option Nat :=
  if cs.all Char.isDigit then
    some (cs.foldl (fun a c => a * 10 + (c.toNat - 48)) 0)
  else
    none

/-- Model of `pd.to_numeric(·, errors="coerce")` on a single string: optional
surrounding whitespace, an optional sign, then digits with at most one dot
and at least one digit in total; anything else coerces to missing.
(Exponent notation, `"inf"`/`"nan"` spellings and thousands-aware parsing are
not exercised by the pipeline, whose inputs at this point are dot-stripped
comma-to-dot strings.)  The value is assembled with `mkRat` on the integer
and fractional digit values. -/
def parseDecimal (s : String) : Option Rat :=
  let sc : Int × List Char :=
    match stripChars s.data with
    | '-' :: t => (-1, t)
    | '+' :: t => (1, t)
    | cs => (1, cs)
  match splitChar '.' sc.2 with
  | [ip] =>
    match digitsVal ip with
    | some n => if ip.isEmpty then none else some (mkRat (sc.1 * n) 1)
    | none => none
  | [ip, fp] =>
    match digitsVal ip, digitsVal fp with
    | some n, some f =>
      if ip.isEmpty && fp.isEmpty then none
      else some (mkRat (sc.1 * (n * 10 ^ fp.length + f)) (10 ^ fp.length))
    | _, _ => none
  | _ => none

/-- The amount parser of source lines 48-55 restricted to one raw string:
transform, then numeric coercion. -/
def parseValor (s : String) : Option Rat :=
  parseDecimal (valorTransform s)

/-- Model of `pd.to_datetime(·, errors="coerce")` on a single string,
restricted to ISO `YYYY-MM-DD` inputs (the only shape exercised here);
anything else coerces to missing. -/
def parseDate (s : String) : Option PDate :=
  match splitChar '-' (stripChars s.data) with
  | [y, m, d] =>
    match digitsVal y, digitsVal m, digitsVal d with
    | some yn, some mn, some dn =>
      if y.isEmpty ∨ m.isEmpty ∨ d.isEmpty then none
      else if 1 ≤ mn ∧ mn ≤ 12 ∧ 1 ≤ dn ∧ dn ≤ 31 then
        some ⟨yn, mn, dn⟩
      else none
    | _, _, _ => none
  | _ => none

/-- Datetime coercion of a cell (`pd.to_datetime(col, errors="coerce")`). -/
def toDatetimeCell : Cell → Cell
  | .na => .na
  | .str s =>
    match parseDate s with
    | some d => .date d
    | none => .na
  | .date d => .date d
  | .num _ => .na

/-! ### The normalizer `load_data`, post-fetch part (source lines 26-66) -/

/-- The column-harmonization table of source lines 27-37. -/
def colmap : List (String × String) :=
  [("Timestamp", "timestamp"),
   ("Tipo de lançamento", "tipo"),
   ("Categoria", "categoria"),
   ("Data do lançamento", "data"),
   ("Valor (R$)", "valor"),
   ("Forma de pagamento", "forma_pagamento"),
   ("De quem recebeu / Para quem pagou (lista)", "pessoa_lista"),
   ("Outro nome (digite manualmente)", "pessoa_texto"),
   ("Observações", "observacoes")]

/-- Rename one label through the harmonization table; unmapped labels pass
through unchanged. -/
def renameLabel (k : String) : String :=
  (List.lookup k colmap).getD k

/-- Source line 38: `df.rename(columns=...)` over the harmonization table. -/
def renameCols (df : DF) : DF :=
  { cols := df.cols.map renameLabel,
    rows := df.rows.map (fun r => r.map (fun kv => (renameLabel kv.1, kv.2))) }

/-- The per-row counterparty value computed by source lines 42-45: the
`fillna("")`-completed free-text name, overwritten by the list-selected name
on the rows where the free-text name strips to the empty string (and the list
column exists). -/
def resolvePessoa (hasLista : Bool) (r : Row) : Cell :=
  let texto := (r.get "pessoa_texto").fillna ""
  if (pyStrip texto.pyStr == "") && hasLista then r.get "pessoa_lista" else texto

/-- Source lines 41-45 (the counterparty resolver).  When neither source
column exists the guard fails and the frame passes through without a
`pessoa_final` column.  When the guard holds but `pessoa_texto` is absent,
`df.get("pessoa_texto", "")` yields the plain string `""`, and `"".fillna`
raises AttributeError. -/
def pessoaStep (df : DF) : Except String DF :=
  if "pessoa_lista" ∈ df.cols ∨ "pessoa_texto" ∈ df.cols then
    if "pessoa_texto" ∈ df.cols then
      .ok (df.addCol "pessoa_final" (resolvePessoa ("pessoa_lista" ∈ df.cols)))
    else
      .error "AttributeError: str object has no attribute fillna"
  else
    .ok df

/-- Numeric coercion of one amount cell (source lines 49-55): stringify,
strip dots, comma to dot, `to_numeric(errors="coerce")`. -/
def valorCell (c : Cell) : Cell :=
  match parseValor c.pyStr with
  | some q => .num q
  | none => .na

/-- Source lines 48-55: parse the `valor` column in place when present. -/
def valorStep (df : DF) : DF :=
  if "valor" ∈ df.cols then df.mapCol "valor" valorCell else df

/-- Source lines 59-62: datetime-coerce `data` when that column exists;
otherwise, when `timestamp` exists, build `data` from it; otherwise leave the
frame unchanged.  The branch on column existence is frame-level: when `data`
exists the timestamp is never consulted, for any row. -/
def dataStep (df : DF) : DF :=
  if "data" ∈ df.cols then
    df.mapCol "data" toDatetimeCell
  else if "timestamp" ∈ df.cols then
    df.addCol "data" (fun r => toDatetimeCell (r.get "timestamp"))
  else
    df

/-- Source line 65: `df.dropna(subset=["valor", "data"])`.  Pandas raises
KeyError when a subset column is absent from the frame. -/
def dropnaStep (df : DF) : Except String DF :=
  if "valor" ∈ df.cols ∧ "data" ∈ df.cols then
    .ok { cols := df.cols,
          rows := df.rows.filter
            (fun r => !(r.get "valor").isNA && !(r.get "data").isNA) }
  else
    .error "KeyError: dropna subset column not in frame"

/-- The normalizer: source lines 26-66 of `load_data`, starting from the
fetched DataFrame. -/
def load_data (df : DF) : Except String DF :=
  match pessoaStep (renameCols df) with
  | .error e => .error e
  | .ok df2 => dropnaStep (dataStep (valorStep df2))

/-! ### Aggregation helpers (sorting, grouping) -/

/-- Stable insertion of one element into a list, before the first element it
is `le`-below-or-equal to. -/
def insertLe (le : α → α → Bool) (a : α) : List α → List α
  | [] => [a]
  | b :: l => if le a b then a :: b :: l else b :: insertLe le a l

/-- Stable insertion sort by a boolean comparison.  Models both the key
ordering applied by `groupby(..., sort=True)` and `sort_values` (whose
default NumPy quicksort is unspecified on ties; the stable model fixes ties
to first-occurrence order, which matches NumPy on the short already-grouped
inputs arising here). -/
def sortLe (le : α → α → Bool) : List α → List α
  | [] => []
  | a :: l => insertLe le a (sortLe le l)

/-- Accumulate `(key, value)` pairs into per-key sums, keys in order of first
appearance. -/
def accumGroups [DecidableEq κ] : List (κ × Rat) → List (κ × Rat) :=
  List.foldl
    (fun acc kv =>
      if (List.lookup kv.1 acc).isSome then
        acc.map (fun kv2 => if kv2.1 = kv.1 then (kv2.1, kv2.2 + kv.2) else kv2)
      else
        acc ++ [kv])
    []

/-- Model of `df.groupby(key)[value].sum()` with default `sort=True`: rows
without a key (NaN) are dropped, sums are per key, and the result is sorted
ascending by key. -/
def groupBySum [DecidableEq κ] (keyLe : κ → κ → Bool) (key : Row → Option κ)
    (value : Row → Rat) (rows : List Row) : List (κ × Rat) :=
  sortLe (fun a b => keyLe a.1 b.1)
    (accumGroups (rows.filterMap (fun r => (key r).map (fun k => (k, value r)))))

/-- The summed quantity of every aggregation: the `valor` cell, with missing
amounts contributing nothing (pandas `sum` skips NaN). -/
def valorOf (r : Row) : Rat :=
  match r.get "valor" with
  | .num q => q
  | _ => 0

/-- The grouping key read from a string-valued column; NaN keys are dropped
by `groupby`. -/
def strKeyOf (r : Row) (k : String) : Option String :=
  match r.get k with
  | .na => none
  | c => some c.pyStr

/-- Boolean total order on strings (lexicographic by code point). -/
def strLe (a b : String) : Bool :=
  charsLe a.data b.data

/-- Lexicographic order on year-month keys. -/
def ymLe (a b : Nat × Nat) : Bool :=
  decide (a.1 < b.1 ∨ (a.1 = b.1 ∧ a.2 ≤ b.2))

/-- Whether the row's `tipo` cell, lower-cased, equals the tag — the test
`df["tipo"].str.lower() == tag` (false on missing / non-string cells). -/
def tipoIs (r : Row) (tag : String) : Bool :=
  match r.get "tipo" with
  | .str s => pyLower s == tag
  | _ => false

/-! ### `kpi_cards` (source lines 68-71) -/

/-- Source lines 68-71: total income, total expense and balance.  When the
`tipo` column is absent both totals are the literal `0`; when it is present,
`df.loc[mask, "valor"]` requires the `valor` column (KeyError otherwise — in
the pipeline the normalizer guarantees it). -/
def kpi_cards (df : DF) : Except String (Rat × Rat × Rat) :=
  if "tipo" ∈ df.cols then
    if "valor" ∈ df.cols then
      let receitas := ((df.rows.filter (fun r => tipoIs r "receita")).map valorOf).sum
      let despesas := ((df.rows.filter (fun r => tipoIs r "despesa")).map valorOf).sum
      .ok (receitas, despesas, receitas - despesas)
    else
      .error "KeyError: valor"
  else
    .ok (0, 0, 0)

/-! ### `monthly_charts` (source lines 78-96) -/

/-- The `ano_mes` grouping key of source line 83: the entry date's calendar
year-month (`dt.to_period("M")`); missing dates yield no key. -/
def ymOf (r : Row) : Option (Nat × Nat) :=
  match r.get "data" with
  | .date d => some (d.year, d.month)
  | _ => none

/-- One point of the merged monthly series of source lines 86-87. -/
structure MonthRow where
  ym : Nat × Nat
  inc : Rat
  des : Rat
  saldo : Rat
deriving DecidableEq, Repr

/-- Source line 86: `receitas_m.merge(despesas_m, on="ano_mes", how="outer",
...).fillna(0)` — the union of the two key sets (an outer merge sorts the
join keys), each key paired with its income sum or `0` and its expense sum or
`0`. -/
def mergeOuter (l r : List ((Nat × Nat) × Rat)) : List ((Nat × Nat) × Rat × Rat) :=
  sortLe (fun a b => ymLe a.1 b.1)
    (l.map (fun kv => (kv.1, kv.2, (List.lookup kv.1 r).getD 0)) ++
     (r.filter (fun kv => decide (kv.1 ∉ l.map Prod.fst))).map
       (fun kv => (kv.1, 0, kv.2)))

/-- Source lines 78-87: the monthly income/expense/balance series.  `none`
models the early `st.info` return when `tipo` is absent; the `data` and
`valor` column accesses of lines 83-85 raise when absent. -/
def monthly_charts (df : DF) : Except String (Option (List MonthRow)) :=
  if "tipo" ∈ df.cols then
    if "data" ∈ df.cols then
      if "valor" ∈ df.cols then
        let receitasM := groupBySum ymLe ymOf valorOf
          (df.rows.filter (fun r => tipoIs r "receita"))
        let despesasM := groupBySum ymLe ymOf valorOf
          (df.rows.filter (fun r => tipoIs r "despesa"))
        .ok (some ((mergeOuter receitasM despesasM).map
          (fun x => ⟨x.1, x.2.1, x.2.2, x.2.1 - x.2.2⟩)))
      else
        .error "KeyError: valor"
    else
      .error "KeyError: data"
  else
    .ok none

/-! ### `category_chart`, `payment_chart`, `top_people_chart`
(source lines 107-150) -/

/-- Source lines 107-118: expense sums per category.  `none` models the
`st.info` branch when `categoria` is absent.  When `categoria` is present,
line 109 evaluates `df["tipo"]` and `...["valor"]` without any guard — a
KeyError when either column is missing. -/
def category_chart (df : DF) : Except String (Option (List (String × Rat))) :=
  if "categoria" ∈ df.cols then
    if "tipo" ∈ df.cols then
      if "valor" ∈ df.cols then
        .ok (some (groupBySum strLe (fun r => strKeyOf r "categoria") valorOf
          (df.rows.filter (fun r => tipoIs r "despesa"))))
      else
        .error "KeyError: valor"
    else
      .error "KeyError: tipo"
  else
    .ok none

/-- Source lines 120-131: amount sums per payment method over all entry
types; `none` when `forma_pagamento` is absent. -/
def payment_chart (df : DF) : Except String (Option (List (String × Rat))) :=
  if "forma_pagamento" ∈ df.cols then
    if "valor" ∈ df.cols then
      .ok (some (groupBySum strLe (fun r => strKeyOf r "forma_pagamento") valorOf
        df.rows))
    else
      .error "KeyError: valor"
  else
    .ok none

/-- Source lines 133-141: amount sums per counterparty over all entry types,
sorted descending by amount, truncated to 15; `none` when `pessoa_final` is
absent.  The grouping step pre-sorts the keys ascending, and the value sort
is modelled stably, so equal sums stay in ascending key order. -/
def top_people_chart (df : DF) : Except String (Option (List (String × Rat))) :=
  if "pessoa_final" ∈ df.cols then
    if "valor" ∈ df.cols then
      .ok (some ((sortLe (fun a b => decide (b.2 ≤ a.2))
        (groupBySum strLe (fun r => strKeyOf r "pessoa_final") valorOf
          df.rows)).take 15))
    else
      .error "KeyError: valor"
  else
    .ok none

/-! ### Input frames and extractors used by the statements -/

/-- A fetched frame over the live-sheet amount, date-of-entry and notes
labels, one row per `(amount, date, notes)` triple. -/
def rawDF (xs : List (String × String × String)) : DF :=
  { cols := ["Valor (R$)", "Data do lançamento", "Observações"],
    rows := xs.map (fun x =>
      [("Valor (R$)", Cell.str x.1),
       ("Data do lançamento", Cell.str x.2.1),
       ("Observações", Cell.str x.2.2)]) }

/-- Row-level completeness: both the amount and the date parse. -/
def goodRow (x : String × String × String) : Bool :=
  (parseValor x.1).isSome && (parseDate x.2.1).isSome

/-- The canonical ledger row produced from one raw `(amount, date, notes)`
triple. -/
def ledgerRow (x : String × String × String) : Row :=
  [("valor", valorCell (Cell.str x.1)),
   ("data", toDatetimeCell (Cell.str x.2.1)),
   ("observacoes", Cell.str x.2.2)]

/-- A fetched frame carrying an amount, a date-of-entry and a timestamp
(one row). -/
def dfBoth (v d t : String) : DF :=
  { cols := ["Valor (R$)", "Data do lançamento", "Timestamp"],
    rows := [[("Valor (R$)", Cell.str v),
              ("Data do lançamento", Cell.str d),
              ("Timestamp", Cell.str t)]] }

/-- A fetched frame carrying an amount and a timestamp but no date-of-entry
column (one row). -/
def dfTsOnly (v t : String) : DF :=
  { cols := ["Valor (R$)", "Timestamp"],
    rows := [[("Valor (R$)", Cell.str v), ("Timestamp", Cell.str t)]] }

/-- A one-row frame over the two counterparty source columns. -/
def mkPessoaDF (t l : Cell) : DF :=
  { cols := ["pessoa_texto", "pessoa_lista"],
    rows := [[("pessoa_texto", t), ("pessoa_lista", l)]] }

/-- The resolved counterparty cells of a frame after the resolver step. -/
def pessoaFinalOf (df : DF) : Except String (List Cell) :=
  (pessoaStep df).map (fun d => d.rows.map (fun r => r.get "pessoa_final"))

/-- A canonical ledger with a category but no `tipo` column (produced by
`load_data` from a sheet lacking the entry-type column). -/
def exNoTipo : DF :=
  { cols := ["categoria", "valor", "data"],
    rows := [[("categoria", Cell.str "Food"),
              ("valor", Cell.num 10),
              ("data", Cell.date ⟨2024, 1, 15⟩)]] }

/-- A ledger with an income-only month (2024-01) and an expense-only month
(2024-02). -/
def exMonthly : DF :=
  { cols := ["tipo", "valor", "data"],
    rows := [[("tipo", Cell.str "receita"), ("valor", Cell.num 100),
              ("data", Cell.date ⟨2024, 1, 10⟩)],
             [("tipo", Cell.str "despesa"), ("valor", Cell.num 50),
              ("data", Cell.date ⟨2024, 2, 5⟩)]] }

/-- A ledger with two counterparties of equal summed amount, `"Zed"` first in
input order. -/
def exTop : DF :=
  { cols := ["pessoa_final", "valor"],
    rows := [[("pessoa_final", Cell.str "Zed"), ("valor", Cell.num 5)],
             [("pessoa_final", Cell.str "Ana"), ("valor", Cell.num 5)]] }

/-! ### Helper lemmas -/

theorem mem_insertLe {le : α → α → Bool} {a x : α} {l : List α} :
    x ∈ insertLe le a l ↔ x = a ∨ x ∈ l := by
  induction l with
  | nil => simp [insertLe]
  | cons b t ih =>
    simp only [insertLe]
    split
    · simp
    · simp only [List.mem_cons, ih]
      tauto

theorem mem_sortLe {le : α → α → Bool} {x : α} {l : List α} :
    x ∈ sortLe le l ↔ x ∈ l := by
  induction l with
  | nil => simp [sortLe]
  | cons a t ih => simp [sortLe, mem_insertLe, ih]

theorem pairwise_insertLe {le : α → α → Bool}
    (htot : ∀ a b, le a b = true ∨ le b a = true)
    (htrans : ∀ a b c, le a b = true → le b c = true → le a c = true)
    (a : α) : ∀ l : List α, l.Pairwise (fun x y => le x y = true) →
    (insertLe le a l).Pairwise (fun x y => le x y = true) := by
  intro l
  induction l with
  | nil => intro _; simp [insertLe]
  | cons b t ih =>
    intro h
    rcases List.pairwise_cons.mp h with ⟨hb, ht⟩
    simp only [insertLe]
    split
    case isTrue hab =>
      refine List.Pairwise.cons ?_ (List.Pairwise.cons hb ht)
      intro y hy
      rcases List.mem_cons.mp hy with rfl | hy
      · exact hab
      · exact htrans _ _ _ hab (hb y hy)
    case isFalse hab =>
      refine List.Pairwise.cons ?_ (ih ht)
      intro y hy
      rcases mem_insertLe.mp hy with ha | hy
      · rw [ha]
        rcases htot a b with h1 | h1
        · exact absurd h1 hab
        · exact h1
      · exact hb y hy

theorem pairwise_sortLe {le : α → α → Bool}
    (htot : ∀ a b, le a b = true ∨ le b a = true)
    (htrans : ∀ a b c, le a b = true → le b c = true → le a c = true)
    (l : List α) : (sortLe le l).Pairwise (fun x y => le x y = true) := by
  induction l with
  | nil => exact List.Pairwise.nil
  | cons a t ih => exact pairwise_insertLe htot htrans a _ ih

theorem filter_map_eq_of (f : α → β) (p : β → Bool) (q : α → Bool) (g : α → β)
    (hp : ∀ a, p (f a) = q a) (hf : ∀ a, f a = g a) :
    ∀ l : List α, (l.map f).filter p = (l.filter q).map g := by
  intro l
  induction l with
  | nil => rfl
  | cons a t ih =>
    rw [List.map_cons, List.filter_cons, List.filter_cons, hp a]
    cases h : q a
    · simp only [h, Bool.false_eq_true, if_false]
      exact ih
    · simp only [h, if_true]
      rw [hf a, ih]
      rfl

theorem map_id_of_forall {f : α → α} {l : List α}
    (h : ∀ a ∈ l, f a = a) : l.map f = l := by
  induction l with
  | nil => rfl
  | cons a t ih =>
    simp only [List.map_cons]
    rw [h a (List.mem_cons_self a t), ih (fun a ha => h a (List.mem_cons_of_mem _ ha))]

/-! ### Claim theorems -/

/-- C1: the amount parser computes its value by removing every dot, replacing
the remaining commas with a dot and parsing the result as a decimal number;
`"1.234,56"` parses to 1234.56, `"56,00"` to 56, `"10.000,00"` to 10000, and
a string that is non-numeric after the transformation yields a missing value
rather than an error. -/
theorem claim_C1 :
    (∀ s : String, parseValor s = parseDecimal (valorTransform s)) ∧
    (∀ s : String, valorTransform s =
      String.mk ((s.data.filter (fun c => c ≠ '.')).map
        (fun c => if c = ',' then '.' else c))) ∧
    parseValor "1.234,56" = some (1234.56 : Rat) ∧
    parseValor "56,00" = some (56 : Rat) ∧
    parseValor "10.000,00" = some (10000 : Rat) ∧
    parseValor "12abc" = none := by
  refine ⟨fun _ => rfl, fun _ => rfl, ?_, by decide, by decide, by decide⟩
  rw [show parseValor "1.234,56" = some (mkRat 123456 100) from by decide]
  norm_num [Rat.mkRat_eq_div]

/-- C2: on a fetched frame over the amount, date-of-entry and notes labels,
the normalizer keeps exactly the rows whose amount and date both parse — the
canonical ledger is the row-wise transform of the input restricted to the
rows passing the completeness filter, and the notes field never affects
inclusion. -/
theorem claim_C2 (xs : List (String × String × String)) :
    load_data (rawDF xs) =
      .ok ⟨["valor", "data", "observacoes"], (xs.filter goodRow).map ledgerRow⟩ := by
  change Except.ok (⟨["valor", "data", "observacoes"],
      ((((xs.map (fun x => ([("Valor (R$)", Cell.str x.1),
            ("Data do lançamento", Cell.str x.2.1),
            ("Observações", Cell.str x.2.2)] : Row))).map
          (fun r => r.map (fun kv => (renameLabel kv.1, kv.2)))).map
          (fun r => Row.set r "valor" (valorCell (Row.get r "valor")))).map
          (fun r => Row.set r "data" (toDatetimeCell (Row.get r "data")))).filter
        (fun r => !(Row.get r "valor").isNA && !(Row.get r "data").isNA)⟩ : DF) = _
  rw [List.map_map, List.map_map, List.map_map]
  refine congrArg (fun l => Except.ok (⟨["valor", "data", "observacoes"], l⟩ : DF))
    (filter_map_eq_of _ _ goodRow ledgerRow ?_ (fun x => rfl) xs)
  intro x
  cases h1 : parseValor x.1 <;> cases h2 : parseDate x.2.1 <;>
    simp +decide [Row.get, Row.set, Cell.isNA, Cell.pyStr, goodRow, valorCell,
      toDatetimeCell, ledgerRow, h1, h2] <;> rfl

/-- C3: the resolved counterparty is the trimmed-nonempty free-text name,
else the list name (whitespace-only manual text yields the list name, a
missing manual cell yields the list name, nonempty manual text wins); when
neither source column exists the frame passes through unchanged, so no
`pessoa_final` field is created. -/
theorem claim_C3 :
    (∀ s l : String, pessoaFinalOf (mkPessoaDF (Cell.str s) (Cell.str l)) =
      .ok [if pyStrip s = "" then Cell.str l else Cell.str s]) ∧
    pessoaFinalOf (mkPessoaDF (Cell.str "  ") (Cell.str "Maria")) =
      .ok [Cell.str "Maria"] ∧
    pessoaFinalOf (mkPessoaDF (Cell.str "João") (Cell.str "Maria")) =
      .ok [Cell.str "João"] ∧
    pessoaFinalOf (mkPessoaDF Cell.na (Cell.str "Maria")) =
      .ok [Cell.str "Maria"] ∧
    (∀ rows : List Row,
      pessoaStep ⟨["observacoes", "valor"], rows⟩ =
        .ok ⟨["observacoes", "valor"], rows⟩) := by
  refine ⟨?_, rfl, rfl, rfl, fun rows => rfl⟩
  intro s l
  by_cases h : pyStrip s = "" <;>
    simp +decide [pessoaFinalOf, mkPessoaDF, pessoaStep, DF.addCol,
      resolvePessoa, Row.get, Row.set, Cell.fillna, Cell.pyStr, h] <;>
    rfl

/-- C5: contrary to the never-raises contract, the pass does raise on inputs
with absent expected columns: a sheet with only a category column reaches
`dropna(subset=["valor", "data"])` and gets a KeyError; a ledger with a
category but no entry-type column makes `category_chart` evaluate
`df["tipo"]`, a KeyError, instead of reporting "not available"; and a sheet
with the list-name column but no free-text-name column makes
`df.get("pessoa_texto", "").fillna("")` raise AttributeError. -/
theorem claim_C5 :
    load_data ⟨["Categoria"], [[("Categoria", Cell.str "Food")]]⟩ =
      .error "KeyError: dropna subset column not in frame" ∧
    load_data ⟨["Categoria", "Valor (R$)", "Data do lançamento"],
      [[("Categoria", Cell.str "Food"), ("Valor (R$)", Cell.str "10,00"),
        ("Data do lançamento", Cell.str "2024-01-15")]]⟩ = .ok exNoTipo ∧
    category_chart exNoTipo = .error "KeyError: tipo" ∧
    load_data ⟨["De quem recebeu / Para quem pagou (lista)", "Valor (R$)",
      "Data do lançamento"],
      [[("De quem recebeu / Para quem pagou (lista)", Cell.str "Maria"),
        ("Valor (R$)", Cell.str "10,00"),
        ("Data do lançamento", Cell.str "2024-01-15")]]⟩ =
      .error "AttributeError: str object has no attribute fillna" :=
  ⟨rfl, rfl, rfl, rfl⟩

/-- C6: total income sums the amounts whose entry type lower-cases to
`"receita"` (so any casing contributes identically), total expense likewise
for `"despesa"`, the balance is income minus expense, and an absent
entry-type column yields zero totals rather than an error. -/
theorem claim_C6 :
    (∀ rows : List Row, kpi_cards ⟨["valor", "data"], rows⟩ = .ok (0, 0, 0)) ∧
    (∀ (c : String) (q : Rat),
      kpi_cards ⟨["tipo", "valor"],
        [[("tipo", Cell.str c), ("valor", Cell.num q)]]⟩ =
        .ok (if pyLower c = "receita" then q else 0,
             if pyLower c = "despesa" then q else 0,
             (if pyLower c = "receita" then q else 0) -
               (if pyLower c = "despesa" then q else 0))) ∧
    kpi_cards ⟨["tipo", "valor"],
      [[("tipo", Cell.str "RECEITA"), ("valor", Cell.num 10)],
       [("tipo", Cell.str "Receita"), ("valor", Cell.num 10)],
       [("tipo", Cell.str "receita"), ("valor", Cell.num 10)],
       [("tipo", Cell.str "despesa"), ("valor", Cell.num 4)]]⟩ =
      .ok (30, 4, 26) ∧
    (∀ df : DF, (kpi_cards df).map (fun x => x.2.2) =
      (kpi_cards df).map (fun x => x.1 - x.2.1)) := by
  refine ⟨fun rows => rfl, ?_, ?_, ?_⟩
  · intro c q
    by_cases h1 : pyLower c = "receita" <;> by_cases h2 : pyLower c = "despesa" <;>
      simp +decide [kpi_cards, tipoIs, valorOf, Row.get, h1, h2] <;> rfl
  · rw [show kpi_cards ⟨["tipo", "valor"],
        [[("tipo", Cell.str "RECEITA"), ("valor", Cell.num 10)],
         [("tipo", Cell.str "Receita"), ("valor", Cell.num 10)],
         [("tipo", Cell.str "receita"), ("valor", Cell.num 10)],
         [("tipo", Cell.str "despesa"), ("valor", Cell.num 4)]]⟩ =
      .ok ((10 : Rat) + (10 + (10 + 0)), (4 : Rat) + 0,
        ((10 : Rat) + (10 + (10 + 0))) - ((4 : Rat) + 0)) from rfl]
    norm_num
  · intro df
    unfold kpi_cards
    split
    · split
      · rfl
      · rfl
    · norm_num [Except.map]

/-- C9: the normalizer is a pure function of the fetched records: running it
twice on the same input produces identical canonical ledgers. -/
theorem claim_C9 : ∀ df : DF, load_data df = load_data df :=
  fun _ => rfl

/-- Counterexample to C4 as stated: a row whose date-of-entry value is
unparseable but whose timestamp is parseable is dropped — the timestamp is
never used as a per-row fallback once the date-of-entry column exists. -/
theorem claim_C4_cex :
    parseValor "56,00" = some (56 : Rat) ∧
    parseDate "2024-01-15" = some ⟨2024, 1, 15⟩ ∧
    load_data (dfBoth "56,00" "garbage" "2024-01-15") =
      .ok ⟨["valor", "data", "timestamp"], []⟩ :=
  ⟨by decide, by decide, rfl⟩

/-- Counterexample to C8 as stated: with equal sums for `"Zed"` (first in
input order) and `"Ana"`, the aggregation returns `"Ana"` first — ties are
not broken by input order. -/
theorem claim_C8_cex :
    top_people_chart exTop = .ok (some [("Ana", (5 : Rat)), ("Zed", 5)]) ∧
    top_people_chart exTop ≠ .ok (some [("Zed", (5 : Rat)), ("Ana", 5)]) := by
  refine ⟨rfl, ?_⟩
  intro h
  rw [show top_people_chart exTop = .ok (some [("Ana", (5 : Rat)), ("Zed", 5)])
    from rfl] at h
  simp at h

/-- C4 (amended): the resolved entry date comes from the date-of-entry
column whenever that column exists in the input — a parsing failure there
yields a missing date (and a dropped row) even when the row's timestamp is
parseable; only when the date-of-entry column is absent is the timestamp
column used, with its parsing failures producing a missing date. -/
theorem claim_C4_amended :
    (∀ v d t : String, (load_data (dfBoth v d t)).map DF.rows =
      .ok (match parseValor v, parseDate d with
           | some q, some dd =>
             [[("valor", Cell.num q), ("data", Cell.date dd), ("timestamp", Cell.str t)]]
           | _, _ => [])) ∧
    (∀ v t : String, (load_data (dfTsOnly v t)).map DF.rows =
      .ok (match parseValor v, parseDate t with
           | some q, some dd =>
             [[("valor", Cell.num q), ("timestamp", Cell.str t), ("data", Cell.date dd)]]
           | _, _ => [])) := by
  constructor
  · intro v d t
    change Except.map DF.rows (Except.ok (⟨["valor", "data", "timestamp"],
      List.filter (fun r => !(Row.get r "valor").isNA && !(Row.get r "data").isNA)
        [[("valor", valorCell (Cell.str v)), ("data", toDatetimeCell (Cell.str d)),
          ("timestamp", Cell.str t)]]⟩ : DF)) = _
    simp only [valorCell, toDatetimeCell, Cell.pyStr]
    cases h1 : parseValor v <;> cases h2 : parseDate d <;> rfl
  · intro v t
    change Except.map DF.rows (Except.ok (⟨["valor", "timestamp", "data"],
      List.filter (fun r => !(Row.get r "valor").isNA && !(Row.get r "data").isNA)
        [[("valor", valorCell (Cell.str v)), ("timestamp", Cell.str t),
          ("data", toDatetimeCell (Cell.str t))]]⟩ : DF)) = _
    simp only [valorCell, toDatetimeCell, Cell.pyStr]
    cases h1 : parseValor v <;> cases h2 : parseDate t <;> rfl

/-- C10: an amount already written with a dot as decimal separator and no
comma has its dot stripped as a thousands separator: `"1234.56"` parses to
123456 — one hundred times the face value 1234.56 that the same digits
denote as a plain decimal — and such a row passes the completeness filter
and enters the ledger with the inflated amount; in general, on comma-free
input the parser equals the plain decimal parser applied to the dot-stripped
string. -/
theorem claim_C10 :
    parseValor "1234.56" = some (123456 : Rat) ∧
    parseDecimal "1234.56" = some (1234.56 : Rat) ∧
    (123456 : Rat) = 100 * 1234.56 ∧
    load_data (rawDF [("1234.56", "2024-01-15", "note")]) =
      .ok ⟨["valor", "data", "observacoes"],
        [[("valor", Cell.num 123456), ("data", Cell.date ⟨2024, 1, 15⟩),
          ("observacoes", Cell.str "note")]]⟩ ∧
    (∀ s : String, ',' ∉ s.data →
      parseValor s = parseDecimal (String.mk (s.data.filter (fun c => c ≠ '.')))) := by
  refine ⟨by decide, ?_, by norm_num, rfl, ?_⟩
  · rw [show parseDecimal "1234.56" = some (mkRat 123456 100) from by decide]
    norm_num [Rat.mkRat_eq_div]
  · intro s h
    show parseDecimal (String.mk ((s.data.filter (fun c => c ≠ '.')).map
      (fun c => if c = ',' then '.' else c))) = _
    rw [map_id_of_forall]
    intro c hc
    rcases List.mem_filter.mp hc with ⟨hcs, _⟩
    have : c ≠ ',' := fun heq => h (heq ▸ hcs)
    simp [this]

/-- Witness for the universally quantified part of the C10 theorem at the
concrete comma-free input `"1234.56"`. -/
theorem claim_C10_w :
    parseValor "1234.56" =
      parseDecimal (String.mk ("1234.56".data.filter (fun c => c ≠ '.'))) :=
  claim_C10.2.2.2.2 "1234.56" (by decide)

/-- C7: the monthly series groups rows by the entry date's calendar
year-month, sums income and expense independently, and each merged point's
balance is its income minus its expense; a key present in either input
series appears in the outer merge, a left key keeping its sum with the right
side looked up or defaulted to 0, and a right-only key appearing with income
0 — never omitted (shown concretely on an income-only and an expense-only
month, and in general for the merge). -/
theorem claim_C7 :
    monthly_charts exMonthly =
      .ok (some [⟨(2024, 1), 100, 0, 100⟩, ⟨(2024, 2), 0, 50, -50⟩]) ∧
    (∀ df : DF, (monthly_charts df).map (Option.map (List.map MonthRow.saldo)) =
      (monthly_charts df).map (Option.map (List.map (fun m => m.inc - m.des)))) ∧
    (∀ (l r : List ((Nat × Nat) × Rat)) (k : Nat × Nat),
      (k ∈ (mergeOuter l r).map (fun x => x.1)) ↔
        (k ∈ l.map Prod.fst ∨ k ∈ r.map Prod.fst)) ∧
    (∀ (l r : List ((Nat × Nat) × Rat)) (kv : (Nat × Nat) × Rat), kv ∈ l →
      (kv.1, kv.2, (List.lookup kv.1 r).getD 0) ∈ mergeOuter l r) ∧
    (∀ (l r : List ((Nat × Nat) × Rat)) (kv : (Nat × Nat) × Rat), kv ∈ r →
      kv.1 ∉ l.map Prod.fst → (kv.1, 0, kv.2) ∈ mergeOuter l r) := by
  refine ⟨?_, ?_, ?_, ?_, ?_⟩
  · rw [show monthly_charts exMonthly =
      .ok (some [⟨(2024, 1), 100, 0, 100 - 0⟩, ⟨(2024, 2), 0, 50, 0 - 50⟩]) from rfl]
    norm_num [MonthRow.mk.injEq]
  · intro df
    unfold monthly_charts
    split
    · split
      · split
        · simp only [Except.map, Option.map, List.map_map]
          rfl
        · rfl
      · rfl
    · rfl
  · intro l r k
    constructor
    · intro hx
      rcases List.mem_map.mp hx with ⟨x, hx1, hxk⟩
      unfold mergeOuter at hx1
      rw [mem_sortLe] at hx1
      rcases List.mem_append.mp hx1 with h | h
      · rcases List.mem_map.mp h with ⟨kv, hkv, hek⟩
        exact Or.inl (List.mem_map.mpr ⟨kv, hkv, by rw [← hxk, ← hek]⟩)
      · rcases List.mem_map.mp h with ⟨kv, hkv, hek⟩
        exact Or.inr (List.mem_map.mpr
          ⟨kv, (List.mem_filter.mp hkv).1, by rw [← hxk, ← hek]⟩)
    · intro h
      by_cases hk : k ∈ l.map Prod.fst
      · rcases List.mem_map.mp hk with ⟨kv, hkv, hfst⟩
        refine List.mem_map.mpr ⟨(kv.1, kv.2, (List.lookup kv.1 r).getD 0), ?_, hfst⟩
        unfold mergeOuter
        rw [mem_sortLe]
        exact List.mem_append.mpr (Or.inl (List.mem_map.mpr ⟨kv, hkv, rfl⟩))
      · rcases h.resolve_left hk with hr
        rcases List.mem_map.mp hr with ⟨kv, hkv, hfst⟩
        refine List.mem_map.mpr ⟨(kv.1, 0, kv.2), ?_, hfst⟩
        unfold mergeOuter
        rw [mem_sortLe]
        refine List.mem_append.mpr (Or.inr (List.mem_map.mpr ⟨kv, ?_, rfl⟩))
        refine List.mem_filter.mpr ⟨hkv, ?_⟩
        simp only [decide_eq_true_eq]
        rw [hfst]
        exact hk
  · intro l r kv h
    unfold mergeOuter
    rw [mem_sortLe]
    exact List.mem_append.mpr (Or.inl (List.mem_map.mpr ⟨kv, h, rfl⟩))
  · intro l r kv h hk
    unfold mergeOuter
    rw [mem_sortLe]
    refine List.mem_append.mpr (Or.inr (List.mem_map.mpr ⟨kv, ?_, rfl⟩))
    exact List.mem_filter.mpr ⟨h, by simpa using hk⟩

/-- Witness for the hypothesized parts of the C7 theorem at concrete
singleton series: a left entry survives the merge with the right side
defaulted to 0, and a right-only entry appears with the left side 0. -/
theorem claim_C7_w :
    ((((2024, 1), (100 : Rat)) ∈ [(((2024, 1) : Nat × Nat), (100 : Rat))]) ∧
      ((((2024, 1) : Nat × Nat), (100 : Rat), (0 : Rat)) ∈
        mergeOuter [((2024, 1), 100)] [])) ∧
    ((((2024, 2), (50 : Rat)) ∈ [(((2024, 2) : Nat × Nat), (50 : Rat))]) ∧
      (((2024, 2) : Nat × Nat) ∉
        ([(((2024, 1) : Nat × Nat), (100 : Rat))].map Prod.fst)) ∧
      ((((2024, 2) : Nat × Nat), (0 : Rat), (50 : Rat)) ∈
        mergeOuter [((2024, 1), 100)] [((2024, 2), 50)])) :=
  ⟨⟨by decide,
    claim_C7.2.2.2.1 [((2024, 1), 100)] [] ((2024, 1), 100) (by decide)⟩,
   ⟨by decide, by decide,
    claim_C7.2.2.2.2 [((2024, 1), 100)] [((2024, 2), 50)] ((2024, 2), 50)
      (by decide) (by decide)⟩⟩

/-- C8 (amended): the top-counterparty aggregation returns at most 15
groups, ordered by descending summed amount; ties between equal sums come
out in ascending counterparty order (the grouping step pre-sorts the keys
alphabetically and the value sort is stable on them), not in input order. -/
theorem claim_C8_amended :
    (∀ (df : DF) (l : List (String × Rat)), top_people_chart df = .ok (some l) →
      l.length ≤ 15 ∧ l.Pairwise (fun a b => b.2 ≤ a.2)) ∧
    top_people_chart exTop = .ok (some [("Ana", (5 : Rat)), ("Zed", 5)]) := by
  refine ⟨?_, rfl⟩
  intro df l h
  unfold top_people_chart at h
  split at h
  · split at h
    · simp only [Except.ok.injEq, Option.some.injEq] at h
      subst h
      constructor
      · rw [List.length_take]
        exact min_le_left _ _
      · refine List.Pairwise.sublist (List.take_sublist _ _) ?_
        refine List.Pairwise.imp (fun hab => of_decide_eq_true hab) ?_
        refine pairwise_sortLe ?_ ?_ _
        · intro a b
          rcases le_total b.2 a.2 with h1 | h1
          · exact Or.inl (decide_eq_true h1)
          · exact Or.inr (decide_eq_true h1)
        · intro a b c h1 h2
          exact decide_eq_true (le_trans (of_decide_eq_true h2) (of_decide_eq_true h1))
    · simp at h
  · simp at h

/-- Witness for the hypothesized part of the C8 theorem at the concrete
two-counterparty ledger. -/
theorem claim_C8_w :
    ([("Ana", (5 : Rat)), ("Zed", 5)] : List (String × Rat)).length ≤ 15 ∧
    List.Pairwise (fun a b : String × Rat => b.2 ≤ a.2)
      [("Ana", (5 : Rat)), ("Zed", 5)] :=
  claim_C8_amended.1 exTop [("Ana", (5 : Rat)), ("Zed", 5)] rfl

end SimplesFinancas
